import Mathlib

/-!
Shallow embedding of the B+Tree index of this repository
(src/Project2A/604251044/BTreeIndex.cc) together with models of its
external collaborators.  `BTreeIndex.open`, `BTreeIndex.close`,
`BTreeIndex.insert`, `BTreeIndex.locate`, `BTreeIndex.readForward`,
`BTreeIndex.getRoot` and `BTreeIndex.getHeight` are translated
statement by statement from BTreeIndex.cc.  The node classes
(BTLeafNode, BTNonLeafNode) and the paged-file storage are not part of
the reviewed sources, so they are modelled from the spec; every such
definition says so in its doc comment.
-/

/-- Modelled from the spec: error codes of the course framework (RC.h is not
among the reviewed sources).  The code only tests the sign of a code and
compares codes for identity, so only distinctness and negativity matter. -/
def RC_FILE_OPEN_FAILED : Int := -1001

/-- Modelled from the spec: storage-close failure code. -/
def RC_FILE_CLOSE_FAILED : Int := -1002

/-- Modelled from the spec: page-read failure code (IOError on read). -/
def RC_FILE_READ_FAILED : Int := -1004

/-- Modelled from the spec: page-write failure code (IOError on write). -/
def RC_FILE_WRITE_FAILED : Int := -1005

/-- Modelled from the spec: code returned by the storage when a page id is
outside the valid range. -/
def RC_INVALID_PID : Int := -1007

/-- Invalid-cursor code, used literally in BTreeIndex.cc (readForward). -/
def RC_INVALID_CURSOR : Int := -1010

/-- Modelled from the spec: NotFound code carried by node-level search. -/
def RC_NO_SUCH_RECORD : Int := -1013

/-- Modelled from the spec: InvalidIndex code, returned by a leaf node's
readEntry when the entry index is out of the current bounds. -/
def RC_INVALID_INDEX : Int := -1015

/-- A record locator: opaque pair (page id, slot id), stored verbatim in
leaf entries and never interpreted by the index. -/
structure RecordId where
  pid : Int
  sid : Int
deriving DecidableEq, Repr

/-- A cursor into the index: page id of a leaf and entry index inside it
(IndexCursor of BTreeIndex.h). -/
structure IndexCursor where
  pid : Int
  eid : Int
deriving DecidableEq, Repr

/-- Modelled from the spec: a leaf node stores an ordered sequence of
(key, record locator) entries plus the page id of the next leaf in the
sibling chain (0 or a sentinel if none). -/
structure BTLeafNode where
  entries : List (Int × RecordId)
  nextPtr : Int
deriving DecidableEq, Repr

/-- Modelled from the spec: an internal node stores an ordered sequence of
keys and an ordered sequence of child page ids (one more child than keys). -/
structure BTNonLeafNode where
  keys : List Int
  children : List Int
deriving DecidableEq, Repr

/-- The first 8 bytes of the metadata page, as two 4-byte integer words:
`w0` is bytes [0..3] and `w1` is bytes [4..7].  The index only ever
touches these two words of its page buffer. -/
structure MetaBuf where
  w0 : Int
  w1 : Int
deriving DecidableEq, Repr

/-- The decoded content of one page.  Leaf/internal page layout is an
implementation-defined encoding that round-trips exactly through
read/write, so pages are modelled at the decoded level. -/
inductive Page where
  | meta : MetaBuf → Page
  | leaf : BTLeafNode → Page
  | nonleaf : BTNonLeafNode → Page
deriving DecidableEq, Repr

/-- Modelled from the spec: the external paged-file storage.  `pages` is
the current content of every page, `endPid` the number of allocated pages
(0 means freshly created).  `readFails`, `writeFails` and `closeFails`
model transient I/O failures of the collaborator, and `isOpen` records
whether the underlying file handle is still open. -/
structure PageFile where
  pages : Int → Page
  endPid : Int
  isOpen : Bool
  readFails : Int → Bool
  writeFails : Int → Bool
  closeFails : Bool

/-- Modelled from the spec: `read(pid, buffer)` of the storage fails with
an invalid-pid code outside [0, endPid) and with a read-failure code on a
transient I/O error, and otherwise yields the page content. -/
def PageFile.read (pf : PageFile) (pid : Int) : Except Int Page :=
  if pid < 0 ∨ pf.endPid ≤ pid then Except.error RC_INVALID_PID
  else if pf.readFails pid then Except.error RC_FILE_READ_FAILED
  else Except.ok (pf.pages pid)

/-- Modelled from the spec: `write(pid, buffer)` of the storage fails with
an invalid-pid code for a negative pid and with a write-failure code on a
transient I/O error; a successful write stores the page and extends the
allocated range if writing at or past the current end. -/
def PageFile.write (pf : PageFile) (pid : Int) (p : Page) : Except Int PageFile :=
  if pid < 0 then Except.error RC_INVALID_PID
  else if pf.writeFails pid then Except.error RC_FILE_WRITE_FAILED
  else Except.ok
    { pf with
      pages := fun i => if i = pid then p else pf.pages i
      endPid := max pf.endPid (pid + 1) }

/-- Modelled from the spec: closing the storage releases the file handle
(the handle is gone even when the close reports a failure). -/
def PageFile.close (pf : PageFile) : Int × PageFile :=
  ((if pf.closeFails then RC_FILE_CLOSE_FAILED else 0), { pf with isOpen := false })

/-- Reinterpreting a page of the wrong kind as a metadata buffer is
unspecified byte reinterpretation in the original code; it is modelled by
a zero buffer.  No claim depends on this case. -/
def Page.asMeta : Page → MetaBuf
  | Page.meta b => b
  | _ => { w0 := 0, w1 := 0 }

/-- Reinterpreting a page of the wrong kind as a leaf node is unspecified
byte reinterpretation; modelled by an empty leaf.  No claim depends on it. -/
def Page.asLeaf : Page → BTLeafNode
  | Page.leaf l => l
  | _ => { entries := [], nextPtr := 0 }

/-- Reinterpreting a page of the wrong kind as an internal node is
unspecified byte reinterpretation; modelled by an empty node. -/
def Page.asNonLeaf : Page → BTNonLeafNode
  | Page.nonleaf n => n
  | _ => { keys := [], children := [] }

/-- Modelled from the spec: BTLeafNode::getKeyCount, the number of entries
currently stored. -/
def BTLeafNode.getKeyCount (n : BTLeafNode) : Int :=
  n.entries.length

/-- Modelled from the spec: BTLeafNode::getNextNodePtr, the sibling-chain
pointer. -/
def BTLeafNode.getNextNodePtr (n : BTLeafNode) : Int :=
  n.nextPtr

/-- The insertion point of a search key in a leaf: the first entry index
whose key is ≥ the search key (spec wording for the NotFound outcome of
the leaf-level locate). -/
def BTLeafNode.insertPoint (n : BTLeafNode) (searchKey : Int) : Nat :=
  (n.entries.takeWhile fun e => decide (e.fst < searchKey)).length

/-- Modelled from the spec: BTLeafNode::locate searches for the entry
index holding the search key; it yields (0, eid) when found and
(RC_NO_SUCH_RECORD, insertion point) when absent. -/
def BTLeafNode.locate (n : BTLeafNode) (searchKey : Int) : Int × Int :=
  let i := n.insertPoint searchKey
  match n.entries.get? i with
  | some e => if e.fst = searchKey then (0, (i : Int)) else (RC_NO_SUCH_RECORD, (i : Int))
  | none => (RC_NO_SUCH_RECORD, (i : Int))

/-- Modelled from the spec: BTLeafNode::readEntry yields the (key,
locator) pair at an entry index and fails with the InvalidIndex code when
the index is out of the current bounds. -/
def BTLeafNode.readEntry (n : BTLeafNode) (eid : Int) : Except Int (Int × RecordId) :=
  if eid < 0 then Except.error RC_INVALID_INDEX
  else
    match n.entries.get? eid.toNat with
    | some e => Except.ok e
    | none => Except.error RC_INVALID_INDEX

/-- Modelled from the spec: BTNonLeafNode::locateChildPtr returns the
child pointer to descend into: the child immediately left of the first
key strictly greater than the search key, or the last child when no key
is greater (equivalently the last child index i with i = 0 or
key[i-1] ≤ searchKey). -/
def BTNonLeafNode.locateChildPtr (n : BTNonLeafNode) (searchKey : Int) : Except Int Int :=
  let i := (n.keys.takeWhile fun k => decide (k ≤ searchKey)).length
  match n.children.get? i with
  | some c => Except.ok c
  | none => Except.error RC_NO_SUCH_RECORD

/-- Modelled from the spec: BTLeafNode::read loads a leaf node from the
given page of the storage, failing when the page read fails. -/
def BTLeafNode.readNode (pf : PageFile) (pid : Int) : Except Int BTLeafNode :=
  (pf.read pid).map Page.asLeaf

/-- Modelled from the spec: BTNonLeafNode::read loads an internal node
from the given page of the storage, failing when the page read fails. -/
def BTNonLeafNode.readNode (pf : PageFile) (pid : Int) : Except Int BTNonLeafNode :=
  (pf.read pid).map Page.asNonLeaf

/-- The in-memory state of a BTreeIndex object: the page id of the root
node, the current height of the tree, the persistent 1-page scratch
buffer (only its first two words are ever used), and the owned storage
(members of BTreeIndex.h / BTreeIndex.cc). -/
structure BTreeIndex where
  rootPid : Int
  treeHeight : Int
  buffer : MetaBuf
  pf : PageFile

/-- The constructor BTreeIndex::BTreeIndex (BTreeIndex.cc lines 21-28):
rootPid -1, treeHeight 0, buffer zero-filled; `pf0` is the not-yet-opened
storage handle. -/
def BTreeIndex.mkFresh (pf0 : PageFile) : BTreeIndex :=
  { rootPid := -1, treeHeight := 0, buffer := { w0 := 0, w1 := 0 }, pf := pf0 }

/-- BTreeIndex::open (BTreeIndex.cc lines 37-83).  The result of the
underlying `pf.open(indexname, mode)` call is an input: `none` means the
storage open failed (the code then returns that error with the members
untouched), `some pf` is the freshly opened storage. -/
def BTreeIndex.open (st : BTreeIndex) (opened : Option PageFile) : Int × BTreeIndex :=
  match opened with
  | none => (RC_FILE_OPEN_FAILED, st)
  | some pf =>
    if pf.endPid = 0 then
      -- first open of this file: re-initialize everything (lines 49-61)
      let st1 := { st with rootPid := -1, treeHeight := 0, pf := pf }
      match pf.write 0 (Page.meta st1.buffer) with
      | Except.error rc => (rc, st1)
      | Except.ok pf1 => (0, { st1 with pf := pf1 })
    else
      -- read the metadata saved in page 0 into the buffer (lines 64-68)
      match pf.read 0 with
      | Except.error rc => (rc, { st with pf := pf })
      | Except.ok page =>
        let buf := page.asMeta
        let loadPid := buf.w0
        let loadHeight := buf.w1
        let st1 := { st with buffer := buf, pf := pf }
        -- adopt the loaded values only when they validate (lines 72-80)
        if 0 < loadPid ∧ 0 ≤ loadHeight then
          (0, { st1 with rootPid := loadPid, treeHeight := loadHeight })
        else
          (0, st1)

/-- BTreeIndex::close (BTreeIndex.cc lines 89-110).  The two memcpy calls
on lines 94-95 both target offset 0 of the buffer: first rootPid is
copied into word 0, then treeHeight is copied into word 0 as well,
overwriting it; word 1 (bytes [4..7]) is never written. -/
def BTreeIndex.close (st : BTreeIndex) : Int × BTreeIndex :=
  let buf1 := { st.buffer with w0 := st.rootPid }
  let buf2 := { buf1 with w0 := st.treeHeight }
  match st.pf.write 0 (Page.meta buf2) with
  | Except.error rc => (rc, { st with buffer := buf2 })
  | Except.ok pf1 =>
    let r := pf1.close
    (r.fst, { st with buffer := buf2, pf := r.snd })

/-- BTreeIndex::insert (BTreeIndex.cc lines 118-121): the body is a stub
that returns 0 without touching any state. -/
def BTreeIndex.insert (st : BTreeIndex) (key : Int) (rid : RecordId) : Int × BTreeIndex :=
  (0, st)

/-- The descent loop of BTreeIndex::locate (BTreeIndex.cc lines 149-168),
with explicit fuel: starting from `curHeight` and page `nextChild`, while
curHeight ≠ treeHeight read the internal node, follow locateChildPtr and
increment curHeight.  `none` means the fuel ran out before the loop
finished (the original loop would still be running). -/
def BTreeIndex.locateLoop (pf : PageFile) (searchKey treeHeight : Int) :
    Int → Int → Nat → Option (Except Int Int)
  | curHeight, nextChild, fuel =>
    if curHeight = treeHeight then some (Except.ok nextChild)
    else
      match fuel with
      | 0 => none
      | Nat.succ fuel1 =>
        match BTNonLeafNode.readNode pf nextChild with
        | Except.error rc => some (Except.error rc)
        | Except.ok node =>
          match node.locateChildPtr searchKey with
          | Except.error rc => some (Except.error rc)
          | Except.ok child =>
            BTreeIndex.locateLoop pf searchKey treeHeight (curHeight + 1) child fuel1

/-- BTreeIndex::locate (BTreeIndex.cc lines 141-197).  `cursor` is the
in/out cursor argument (left as passed on the error paths that precede
the leaf search); the returned BTreeIndex is the object state after the
call.  The fuel bounds the descent loop; `none` means the loop was still
running when the fuel ran out. -/
def BTreeIndex.locate (st : BTreeIndex) (searchKey : Int) (cursor : IndexCursor)
    (fuel : Nat) : Option (Int × IndexCursor × BTreeIndex) :=
  match BTreeIndex.locateLoop st.pf searchKey st.treeHeight 1 st.rootPid fuel with
  | none => none
  | some (Except.error rc) => some (rc, cursor, st)
  | some (Except.ok leafPid) =>
    -- we reached the leaf level: read the leaf node (lines 172-176)
    match BTLeafNode.readNode st.pf leafPid with
    | Except.error rc => some (rc, cursor, st)
    | Except.ok leafNode =>
      -- locate the search key in the leaf (lines 179-196)
      let r := leafNode.locate searchKey
      some (r.fst, { pid := leafPid, eid := r.snd }, st)

/-- BTreeIndex::readForward (BTreeIndex.cc lines 207-242).  Returns the
error code, the advanced cursor (the in/out cursor argument), the (key,
rid) out parameters when they were written, and the object state after
the call.  Note the order in the source: the leaf read and the entry
lookup happen before the `cursor.pid <= 0` check. -/
def BTreeIndex.readForward (st : BTreeIndex) (cursor : IndexCursor) :
    Int × IndexCursor × Option (Int × RecordId) × BTreeIndex :=
  match BTLeafNode.readNode st.pf cursor.pid with
  | Except.error rc => (rc, cursor, none, st)
  | Except.ok leafNode =>
    match leafNode.readEntry cursor.eid with
    | Except.error rc => (rc, cursor, none, st)
    | Except.ok kr =>
      if cursor.pid ≤ 0 then (RC_INVALID_CURSOR, cursor, some kr, st)
      else
        let cursor1 :=
          if cursor.eid + 1 < leafNode.getKeyCount then
            { cursor with eid := cursor.eid + 1 }
          else
            { pid := leafNode.getNextNodePtr, eid := 0 }
        (0, cursor1, some kr, st)

/-- BTreeIndex::getRoot (BTreeIndex.cc lines 245-248). -/
def BTreeIndex.getRoot (st : BTreeIndex) : Int :=
  st.rootPid

/-- BTreeIndex::getHeight (BTreeIndex.cc lines 250-253). -/
def BTreeIndex.getHeight (st : BTreeIndex) : Int :=
  st.treeHeight

/-- Specification form of the descent: starting at page `pid`, follow
`locateChildPtr` through exactly `m` internal levels.  Used to state that
`locate` descends through exactly `treeHeight - 1` internal levels. -/
def BTreeIndex.descend (pf : PageFile) (searchKey : Int) : Int → Nat → Except Int Int
  | pid, 0 => Except.ok pid
  | pid, Nat.succ m =>
    match BTNonLeafNode.readNode pf pid with
    | Except.error rc => Except.error rc
    | Except.ok node =>
      match node.locateChildPtr searchKey with
      | Except.error rc => Except.error rc
      | Except.ok child => BTreeIndex.descend pf searchKey child m

/-- A healthy 1-page storage whose metadata page is zero-filled. -/
def pfBlank : PageFile :=
  { pages := fun _ => Page.meta { w0 := 0, w1 := 0 }
    endPid := 1
    isOpen := true
    readFails := fun _ => false
    writeFails := fun _ => false
    closeFails := false }

/-- A freshly created storage: no page allocated yet. -/
def pfFresh : PageFile :=
  { pages := fun _ => Page.meta { w0 := 0, w1 := 0 }
    endPid := 0
    isOpen := true
    readFails := fun _ => false
    writeFails := fun _ => false
    closeFails := false }

/-- A storage on which every page write fails (used to probe the error
path of close). -/
def pfWriteFail : PageFile :=
  { pages := fun _ => Page.meta { w0 := 0, w1 := 0 }
    endPid := 1
    isOpen := true
    readFails := fun _ => false
    writeFails := fun _ => true
    closeFails := false }

/-- An index whose metadata write will fail: rootPid 2, treeHeight 1,
backed by the always-failing-write storage. -/
def stWriteFail : BTreeIndex :=
  { rootPid := 2, treeHeight := 1, buffer := { w0 := 0, w1 := 0 }, pf := pfWriteFail }

/-- A healthy 2-page storage whose page 0 holds the correctly laid-out
metadata of a tree with root 2 and height 1 (as page 0 would look before
a session that grew the tree). -/
def pfRound : PageFile :=
  { pages := fun _ => Page.meta { w0 := 2, w1 := 1 }
    endPid := 2
    isOpen := true
    readFails := fun _ => false
    writeFails := fun _ => false
    closeFails := false }

/-- A non-empty index about to be closed: in memory the tree has grown to
root page 4 and height 2, while the scratch buffer still holds the words
(2, 1) read from page 0 at open time. -/
def stRound : BTreeIndex :=
  { rootPid := 4, treeHeight := 2, buffer := { w0 := 2, w1 := 1 }, pf := pfRound }

/-- A two-entry leaf on page 1 (keys 5 and 9), end of the sibling chain. -/
def lnTwo : BTLeafNode :=
  { entries := [(5, { pid := 7, sid := 0 }), (9, { pid := 7, sid := 1 })], nextPtr := 0 }

/-- A storage holding the two-entry leaf on page 1. -/
def pfLeaf : PageFile :=
  { pages := fun i => if i = 1 then Page.leaf lnTwo else Page.meta { w0 := 0, w1 := 0 }
    endPid := 2
    isOpen := true
    readFails := fun _ => false
    writeFails := fun _ => false
    closeFails := false }

/-- A height-1 index whose single leaf is page 1. -/
def stLeaf : BTreeIndex :=
  { rootPid := 1, treeHeight := 1, buffer := { w0 := 1, w1 := 1 }, pf := pfLeaf }

/-- The single-entry leaf on page 2 of the height-2 example tree. -/
def lnLeft : BTLeafNode :=
  { entries := [(5, { pid := 7, sid := 0 })], nextPtr := 3 }

/-- A height-2 example tree: internal root on page 1 with separator key 10
and children pages 2 and 3, both leaves. -/
def pfTree : PageFile :=
  { pages := fun i =>
      if i = 1 then Page.nonleaf { keys := [10], children := [2, 3] }
      else if i = 2 then Page.leaf lnLeft
      else if i = 3 then
        Page.leaf { entries := [(10, { pid := 7, sid := 1 }), (20, { pid := 7, sid := 2 })], nextPtr := 0 }
      else Page.meta { w0 := 1, w1 := 2 }
    endPid := 4
    isOpen := true
    readFails := fun _ => false
    writeFails := fun _ => false
    closeFails := false }

/-- The index state over the height-2 example tree. -/
def stTree : BTreeIndex :=
  { rootPid := 1, treeHeight := 2, buffer := { w0 := 1, w1 := 2 }, pf := pfTree }

/-- The descent loop equals exactly `m` applications of the internal-node
step when the fuel covers `m = treeHeight - curHeight` remaining levels. -/
theorem locateLoop_eq_descend (pf : PageFile) (searchKey treeHeight : Int) :
    ∀ (m fuel : Nat) (curHeight pid : Int), curHeight + (m : Int) = treeHeight → m ≤ fuel →
      BTreeIndex.locateLoop pf searchKey treeHeight curHeight pid fuel =
        some (BTreeIndex.descend pf searchKey pid m) := by
  intro m
  induction m with
  | zero =>
    intro fuel curHeight pid hc _
    unfold BTreeIndex.locateLoop
    simp only [Nat.cast_zero, add_zero] at hc
    simp [hc, BTreeIndex.descend]
  | succ m ih =>
    intro fuel curHeight pid hc hf
    have hne : curHeight ≠ treeHeight := by omega
    obtain ⟨fuel1, rfl⟩ : ∃ f1, fuel = f1 + 1 := ⟨fuel - 1, by omega⟩
    unfold BTreeIndex.locateLoop BTreeIndex.descend
    simp only [hne, if_false]
    rcases hr : BTNonLeafNode.readNode pf pid with rc | node
    · rfl
    · simp only []
      rcases hcp : node.locateChildPtr searchKey with rc | child
      · rfl
      · simp only []
        exact ih fuel1 (curHeight + 1) child (by omega) (by omega)

/-- Every result state returned by `locate` is the input state: the method
only reads (no member of the index object is written). -/
theorem locate_state (st : BTreeIndex) (searchKey : Int) (cursor : IndexCursor)
    (fuel : Nat) (rc : Int) (cursor1 : IndexCursor) (st1 : BTreeIndex)
    (h : BTreeIndex.locate st searchKey cursor fuel = some (rc, cursor1, st1)) :
    st1 = st := by
  unfold BTreeIndex.locate at h
  rcases hl : BTreeIndex.locateLoop st.pf searchKey st.treeHeight 1 st.rootPid fuel with _ | e
  · rw [hl] at h; cases h
  · rw [hl] at h
    rcases e with rc2 | leafPid
    · simp only [Option.some.injEq, Prod.mk.injEq] at h
      exact h.2.2.symm
    · simp only [] at h
      rcases hr : BTLeafNode.readNode st.pf leafPid with rc3 | ln
      · rw [hr] at h
        simp only [Option.some.injEq, Prod.mk.injEq] at h
        exact h.2.2.symm
      · rw [hr] at h
        simp only [Option.some.injEq, Prod.mk.injEq] at h
        exact h.2.2.symm

/-- The state returned by `readForward` is the input state: the method
only reads (no member of the index object is written). -/
theorem readForward_state (st : BTreeIndex) (cursor : IndexCursor) :
    (BTreeIndex.readForward st cursor).snd.snd.snd = st := by
  unfold BTreeIndex.readForward
  rcases hr : BTLeafNode.readNode st.pf cursor.pid with rc | ln
  · rfl
  · simp only []
    rcases he : ln.readEntry cursor.eid with rc | kr
    · rfl
    · by_cases hp : cursor.pid ≤ 0
      · simp [hp]
      · simp [hp]

/-- C2: the spec (and the function's own documentation) requires insert on
an empty tree to allocate a leaf page, store the entry, set it as root and
make the height 1; the reviewed code's insert body is a stub that returns
success and changes nothing, so after inserting into the empty tree the
height is still 0 and the root is still the sentinel -1. -/
theorem insert_empty_tree_stub_no_growth :
    BTreeIndex.insert (BTreeIndex.mkFresh pfBlank) 5 { pid := 1, sid := 0 } =
      (0, BTreeIndex.mkFresh pfBlank) ∧
    BTreeIndex.getHeight (BTreeIndex.insert (BTreeIndex.mkFresh pfBlank) 5 { pid := 1, sid := 0 }).snd = 0 ∧
    BTreeIndex.getRoot (BTreeIndex.insert (BTreeIndex.mkFresh pfBlank) 5 { pid := 1, sid := 0 }).snd = -1 :=
  ⟨rfl, rfl, rfl⟩

/-- C9: on the first open of a nonexistent index file (the storage reports
zero pages) the index becomes an empty tree: rootPid is the sentinel -1,
treeHeight is 0, the metadata page 0 is written (with the current scratch
buffer) and open succeeds; getRoot and getHeight then return -1 and 0. -/
theorem open_fresh_storage_empty_tree (st : BTreeIndex) (pf : PageFile)
    (hend : pf.endPid = 0) (hw : pf.writeFails 0 = false) :
    (BTreeIndex.open st (some pf)).fst = 0 ∧
    BTreeIndex.getRoot (BTreeIndex.open st (some pf)).snd = -1 ∧
    BTreeIndex.getHeight (BTreeIndex.open st (some pf)).snd = 0 ∧
    (BTreeIndex.open st (some pf)).snd.pf.pages 0 = Page.meta st.buffer ∧
    (BTreeIndex.open st (some pf)).snd.pf.endPid = 1 := by
  unfold BTreeIndex.open PageFile.write
  simp [hend, hw, BTreeIndex.getRoot, BTreeIndex.getHeight]

/-- Closed instance of C9 at a concrete fresh storage. -/
theorem open_fresh_storage_empty_tree_witness :
    (BTreeIndex.open (BTreeIndex.mkFresh pfFresh) (some pfFresh)).fst = 0 ∧
    BTreeIndex.getRoot (BTreeIndex.open (BTreeIndex.mkFresh pfFresh) (some pfFresh)).snd = -1 ∧
    BTreeIndex.getHeight (BTreeIndex.open (BTreeIndex.mkFresh pfFresh) (some pfFresh)).snd = 0 ∧
    (BTreeIndex.open (BTreeIndex.mkFresh pfFresh) (some pfFresh)).snd.pf.pages 0 =
      Page.meta (BTreeIndex.mkFresh pfFresh).buffer ∧
    (BTreeIndex.open (BTreeIndex.mkFresh pfFresh) (some pfFresh)).snd.pf.endPid = 1 :=
  open_fresh_storage_empty_tree (BTreeIndex.mkFresh pfFresh) pfFresh rfl rfl

/-- C8: opening an existing file whose page-0 words fail validation
(loaded rootPid ≤ 0 or loaded treeHeight < 0) succeeds and keeps the
empty-tree defaults rootPid -1 and treeHeight 0; the loaded words are
adopted exactly when rootPid > 0 and treeHeight ≥ 0. -/
theorem open_existing_validates_metadata (st : BTreeIndex) (pf : PageFile) (buf : MetaBuf)
    (hroot : st.rootPid = -1) (hheight : st.treeHeight = 0)
    (hend : pf.endPid ≠ 0) (hread : pf.read 0 = Except.ok (Page.meta buf)) :
    (BTreeIndex.open st (some pf)).fst = 0 ∧
    ((buf.w0 ≤ 0 ∨ buf.w1 < 0) →
      BTreeIndex.getRoot (BTreeIndex.open st (some pf)).snd = -1 ∧
      BTreeIndex.getHeight (BTreeIndex.open st (some pf)).snd = 0) ∧
    ((0 < buf.w0 ∧ 0 ≤ buf.w1) →
      BTreeIndex.getRoot (BTreeIndex.open st (some pf)).snd = buf.w0 ∧
      BTreeIndex.getHeight (BTreeIndex.open st (some pf)).snd = buf.w1) := by
  have hopen : BTreeIndex.open st (some pf) =
      if 0 < buf.w0 ∧ 0 ≤ buf.w1 then
        (0, { st with buffer := buf, pf := pf, rootPid := buf.w0, treeHeight := buf.w1 })
      else
        (0, { st with buffer := buf, pf := pf }) := by
    unfold BTreeIndex.open
    simp only []
    rw [if_neg hend, hread]
    simp only [Page.asMeta]
  by_cases hv : 0 < buf.w0 ∧ 0 ≤ buf.w1
  · rw [hopen, if_pos hv]
    refine ⟨rfl, ?_, fun _ => ⟨rfl, rfl⟩⟩
    intro hbad
    exact absurd hv (by omega)
  · rw [hopen, if_neg hv]
    refine ⟨rfl, fun _ => ⟨?_, ?_⟩, fun h => absurd h hv⟩
    · exact hroot
    · exact hheight

/-- Closed instance of C8 at a zero-initialized metadata page. -/
theorem open_existing_validates_metadata_witness :
    (BTreeIndex.open (BTreeIndex.mkFresh pfBlank) (some pfBlank)).fst = 0 ∧
    BTreeIndex.getRoot (BTreeIndex.open (BTreeIndex.mkFresh pfBlank) (some pfBlank)).snd = -1 ∧
    BTreeIndex.getHeight (BTreeIndex.open (BTreeIndex.mkFresh pfBlank) (some pfBlank)).snd = 0 := by
  have h := open_existing_validates_metadata (BTreeIndex.mkFresh pfBlank) pfBlank
    { w0 := 0, w1 := 0 } rfl rfl (by decide) rfl
  exact ⟨h.1, (h.2.1 (by decide)).1, (h.2.1 (by decide)).2⟩

/-- C10: locate and readForward leave the index's rootPid and treeHeight
unchanged on every input and every outcome: both methods only read the
storage and never write a member of the index object. -/
theorem locate_readForward_preserve_root_height (st : BTreeIndex) (searchKey : Int)
    (cursor cursor2 : IndexCursor) (fuel : Nat) (rc : Int) (cursor1 : IndexCursor)
    (st1 : BTreeIndex)
    (hloc : BTreeIndex.locate st searchKey cursor fuel = some (rc, cursor1, st1)) :
    (BTreeIndex.getRoot st1 = BTreeIndex.getRoot st ∧
     BTreeIndex.getHeight st1 = BTreeIndex.getHeight st) ∧
    (BTreeIndex.getRoot (BTreeIndex.readForward st cursor2).snd.snd.snd = BTreeIndex.getRoot st ∧
     BTreeIndex.getHeight (BTreeIndex.readForward st cursor2).snd.snd.snd = BTreeIndex.getHeight st) := by
  have h1 := locate_state st searchKey cursor fuel rc cursor1 st1 hloc
  have h2 := readForward_state st cursor2
  rw [h1, h2]
  exact ⟨⟨rfl, rfl⟩, ⟨rfl, rfl⟩⟩

/-- Closed instance of C10 on the empty tree (where locate fails with the
invalid-pid error and readForward is probed at an arbitrary cursor). -/
theorem locate_readForward_preserve_root_height_witness :
    (BTreeIndex.getRoot (BTreeIndex.mkFresh pfBlank) = BTreeIndex.getRoot (BTreeIndex.mkFresh pfBlank) ∧
     BTreeIndex.getHeight (BTreeIndex.mkFresh pfBlank) = BTreeIndex.getHeight (BTreeIndex.mkFresh pfBlank)) ∧
    (BTreeIndex.getRoot (BTreeIndex.readForward (BTreeIndex.mkFresh pfBlank) { pid := 1, eid := 0 }).snd.snd.snd =
      BTreeIndex.getRoot (BTreeIndex.mkFresh pfBlank) ∧
     BTreeIndex.getHeight (BTreeIndex.readForward (BTreeIndex.mkFresh pfBlank) { pid := 1, eid := 0 }).snd.snd.snd =
      BTreeIndex.getHeight (BTreeIndex.mkFresh pfBlank)) :=
  locate_readForward_preserve_root_height (BTreeIndex.mkFresh pfBlank) 7 { pid := 0, eid := 0 }
    { pid := 1, eid := 0 } 1 RC_INVALID_PID { pid := 0, eid := 0 } (BTreeIndex.mkFresh pfBlank) rfl

/-- C7: on success readForward returns the (key, locator) pair at the
cursor position and advances the cursor in place: when further entries
remain in the current leaf the entry index is incremented, otherwise the
entry index resets to 0 and the page id moves to the leaf's next-node
pointer. -/
theorem readForward_success_advances (st : BTreeIndex) (cursor : IndexCursor)
    (ln : BTLeafNode) (kr : Int × RecordId)
    (hread : BTLeafNode.readNode st.pf cursor.pid = Except.ok ln)
    (hentry : ln.readEntry cursor.eid = Except.ok kr)
    (hpid : 0 < cursor.pid) :
    BTreeIndex.readForward st cursor =
      (0,
       (if cursor.eid + 1 < ln.getKeyCount then { pid := cursor.pid, eid := cursor.eid + 1 }
        else { pid := ln.getNextNodePtr, eid := 0 }),
       some kr, st) := by
  unfold BTreeIndex.readForward
  rw [hread]
  simp only []
  rw [hentry]
  simp only []
  rw [if_neg (by omega : ¬cursor.pid ≤ 0)]

/-- Closed instance of C7: reading entry 0 of the two-entry leaf yields
key 5 and advances the cursor to entry 1 of the same leaf. -/
theorem readForward_success_advances_witness :
    BTreeIndex.readForward stLeaf { pid := 1, eid := 0 } =
      (0, { pid := 1, eid := 1 }, some (5, { pid := 7, sid := 0 }), stLeaf) := by
  have h := readForward_success_advances stLeaf { pid := 1, eid := 0 } lnTwo
    (5, { pid := 7, sid := 0 }) rfl rfl (by decide)
  exact h.trans rfl

/-- C6 (amended): because readForward performs the leaf-page read before
its `cursor.pid <= 0` check, a cursor whose pid is outside the valid page
range fails with the storage's invalid-pid code, not with InvalidCursor;
an in-range read failure yields the read-failure code, a failing entry
lookup yields the InvalidIndex code, and InvalidCursor is produced only
when cursor.pid ≤ 0 while the read and the entry lookup both succeed. -/
theorem readForward_error_code_order (st : BTreeIndex) (cursor : IndexCursor) :
    ((cursor.pid < 0 ∨ st.pf.endPid ≤ cursor.pid) →
      (BTreeIndex.readForward st cursor).fst = RC_INVALID_PID) ∧
    (¬(cursor.pid < 0 ∨ st.pf.endPid ≤ cursor.pid) → st.pf.readFails cursor.pid = true →
      (BTreeIndex.readForward st cursor).fst = RC_FILE_READ_FAILED) ∧
    (∀ ln : BTLeafNode, BTLeafNode.readNode st.pf cursor.pid = Except.ok ln →
      ln.readEntry cursor.eid = Except.error RC_INVALID_INDEX →
      (BTreeIndex.readForward st cursor).fst = RC_INVALID_INDEX) ∧
    (∀ (ln : BTLeafNode) (kr : Int × RecordId), cursor.pid ≤ 0 →
      BTLeafNode.readNode st.pf cursor.pid = Except.ok ln →
      ln.readEntry cursor.eid = Except.ok kr →
      (BTreeIndex.readForward st cursor).fst = RC_INVALID_CURSOR) := by
  refine ⟨?_, ?_, ?_, ?_⟩
  · intro h
    have hr : BTLeafNode.readNode st.pf cursor.pid = Except.error RC_INVALID_PID := by
      unfold BTLeafNode.readNode PageFile.read
      rw [if_pos h]
      rfl
    unfold BTreeIndex.readForward
    rw [hr]
  · intro h hfail
    have hr : BTLeafNode.readNode st.pf cursor.pid = Except.error RC_FILE_READ_FAILED := by
      unfold BTLeafNode.readNode PageFile.read
      rw [if_neg h, if_pos hfail]
      rfl
    unfold BTreeIndex.readForward
    rw [hr]
  · intro ln hr he
    unfold BTreeIndex.readForward
    rw [hr]
    simp only []
    rw [he]
  · intro ln kr hpid hr he
    unfold BTreeIndex.readForward
    rw [hr]
    simp only []
    rw [he]
    simp only []
    rw [if_pos hpid]

/-- C6 counterexample: on a cursor with pid -1 readForward returns the
storage's invalid-pid code, not the InvalidCursor code the claim
requires. -/
theorem readForward_negative_pid_counterexample :
    (BTreeIndex.readForward (BTreeIndex.mkFresh pfBlank) { pid := -1, eid := 0 }).fst =
      RC_INVALID_PID ∧
    (BTreeIndex.readForward (BTreeIndex.mkFresh pfBlank) { pid := -1, eid := 0 }).fst ≠
      RC_INVALID_CURSOR := by
  exact ⟨rfl, by decide⟩

/-- Closed instance of C6 (amended): a cursor past the end of the page
range also gets the invalid-pid code. -/
theorem readForward_error_code_order_witness :
    (BTreeIndex.readForward (BTreeIndex.mkFresh pfBlank) { pid := 99, eid := 0 }).fst =
      RC_INVALID_PID :=
  (readForward_error_code_order (BTreeIndex.mkFresh pfBlank) { pid := 99, eid := 0 }).1
    (by decide)

/-- C5 (amended): on an empty tree (rootPid -1, treeHeight 0) locate
terminates for any search key: since curHeight 1 never equals treeHeight
0 the loop body runs, immediately tries to read page -1, and returns the
storage's invalid-pid error (not NotFound), leaving the cursor untouched. -/
theorem locate_empty_tree_invalid_pid (st : BTreeIndex) (searchKey : Int)
    (cursor : IndexCursor) (fuel : Nat)
    (hroot : st.rootPid = -1) (hheight : st.treeHeight = 0) (hfuel : 1 ≤ fuel) :
    BTreeIndex.locate st searchKey cursor fuel = some (RC_INVALID_PID, cursor, st) := by
  obtain ⟨fuel1, rfl⟩ : ∃ f1, fuel = f1 + 1 := ⟨fuel - 1, by omega⟩
  have hr : BTNonLeafNode.readNode st.pf (-1) = Except.error RC_INVALID_PID := by
    unfold BTNonLeafNode.readNode PageFile.read
    rw [if_pos (by omega : (-1 : Int) < 0 ∨ st.pf.endPid ≤ -1)]
    rfl
  unfold BTreeIndex.locate BTreeIndex.locateLoop
  rw [hroot, hheight]
  rw [if_neg (by decide : ¬(1 : Int) = 0)]
  simp only []
  rw [hr]

/-- C5 counterexample: on the concrete empty tree, locate(5) returns the
invalid-pid error code, which differs from the NotFound code the claim
requires. -/
theorem locate_empty_tree_counterexample :
    (BTreeIndex.locate (BTreeIndex.mkFresh pfBlank) 5 { pid := 0, eid := 0 } 1).map
        (fun r => r.fst) = some RC_INVALID_PID ∧
    RC_INVALID_PID ≠ RC_NO_SUCH_RECORD :=
  ⟨rfl, by decide⟩

/-- Closed instance of C5 (amended) at another key, cursor and fuel. -/
theorem locate_empty_tree_invalid_pid_witness :
    BTreeIndex.locate (BTreeIndex.mkFresh pfBlank) 7 { pid := 3, eid := 4 } 2 =
      some (RC_INVALID_PID, { pid := 3, eid := 4 }, BTreeIndex.mkFresh pfBlank) :=
  locate_empty_tree_invalid_pid (BTreeIndex.mkFresh pfBlank) 7 { pid := 3, eid := 4 } 2
    rfl rfl (by decide)

/-- C4 (amended): close first copies the metadata into the scratch buffer
(both copies land in word 0, so word 0 ends up holding treeHeight) and
writes it to page 0; if that write fails, close returns the write error
immediately and the storage is left untouched and still open — no close
is attempted; only when the write succeeds does it close the storage,
returning the close result (an error if the storage close fails). -/
theorem close_sequencing (st : BTreeIndex) :
    (∀ rc : Int,
      st.pf.write 0 (Page.meta { st.buffer with w0 := st.treeHeight }) = Except.error rc →
      BTreeIndex.close st =
        (rc, { st with buffer := { st.buffer with w0 := st.treeHeight } })) ∧
    (∀ pf1 : PageFile,
      st.pf.write 0 (Page.meta { st.buffer with w0 := st.treeHeight }) = Except.ok pf1 →
      (BTreeIndex.close st).fst = (if pf1.closeFails then RC_FILE_CLOSE_FAILED else 0) ∧
      (BTreeIndex.close st).snd.pf.isOpen = false) := by
  constructor
  · intro rc hw
    unfold BTreeIndex.close
    simp only []
    rw [hw]
  · intro pf1 hw
    unfold BTreeIndex.close
    simp only []
    rw [hw]
    simp [PageFile.close]

/-- C4 counterexample: when the metadata write to page 0 fails, close
returns the write error and the storage object is completely untouched —
in particular it is still open, so no storage close was attempted,
contrary to the claim. -/
theorem close_write_failure_leaves_storage_open :
    (BTreeIndex.close stWriteFail).fst = RC_FILE_WRITE_FAILED ∧
    (BTreeIndex.close stWriteFail).snd.pf.isOpen = true ∧
    (BTreeIndex.close stWriteFail).snd.pf = stWriteFail.pf :=
  ⟨rfl, rfl, rfl⟩

/-- Closed instance of C4 (amended) on the failing-write storage. -/
theorem close_sequencing_witness :
    BTreeIndex.close stWriteFail =
      (RC_FILE_WRITE_FAILED,
       { stWriteFail with
          buffer := { stWriteFail.buffer with w0 := stWriteFail.treeHeight } }) :=
  (close_sequencing stWriteFail).1 RC_FILE_WRITE_FAILED rfl

/-- C1: the claim fails because close writes treeHeight into bytes [0..3]
(both memcpy calls on BTreeIndex.cc lines 94-95 use offset 0) and never
writes bytes [4..7].  For the non-empty tree with rootPid 4 and
treeHeight 2 (scratch buffer still holding the words (2, 1) loaded from
page 0), close succeeds but page 0 ends up holding (2, 1) instead of
(4, 2), so reopening restores rootPid 2 and treeHeight 1 — the
open → close → open round trip loses both values. -/
theorem close_open_metadata_bug :
    BTreeIndex.getRoot stRound = 4 ∧
    BTreeIndex.getHeight stRound = 2 ∧
    (BTreeIndex.close stRound).fst = 0 ∧
    (BTreeIndex.close stRound).snd.pf.pages 0 = Page.meta { w0 := 2, w1 := 1 } ∧
    BTreeIndex.getRoot (BTreeIndex.open (BTreeIndex.mkFresh (BTreeIndex.close stRound).snd.pf)
        (some (BTreeIndex.close stRound).snd.pf)).snd = 2 ∧
    BTreeIndex.getHeight (BTreeIndex.open (BTreeIndex.mkFresh (BTreeIndex.close stRound).snd.pf)
        (some (BTreeIndex.close stRound).snd.pf)).snd = 1 :=
  ⟨rfl, rfl, rfl, rfl, by decide, by decide⟩

/-- C3: for a non-empty tree, locate descends from the root through
exactly treeHeight - 1 internal levels (applying locateChildPtr at each,
which is what `descend` expresses) to a leaf, then searches that leaf:
when the key sits at its insertion point the call succeeds with cursor =
(leaf page id, that entry index), otherwise it returns the NotFound code
with cursor = (leaf page id, insertion-point entry index). -/
theorem locate_descends_to_leaf (st : BTreeIndex) (searchKey : Int) (cursor : IndexCursor)
    (fuel : Nat) (leafPid : Int) (ln : BTLeafNode)
    (hH : 1 ≤ st.treeHeight)
    (hfuel : (st.treeHeight - 1).toNat ≤ fuel)
    (hdesc : BTreeIndex.descend st.pf searchKey st.rootPid (st.treeHeight - 1).toNat =
      Except.ok leafPid)
    (hleaf : BTLeafNode.readNode st.pf leafPid = Except.ok ln) :
    BTreeIndex.locate st searchKey cursor fuel =
      some
        ((if (ln.entries.get? (ln.insertPoint searchKey)).map Prod.fst = some searchKey
            then 0 else RC_NO_SUCH_RECORD),
         { pid := leafPid, eid := (ln.insertPoint searchKey : Int) },
         st) := by
  have hloop := locateLoop_eq_descend st.pf searchKey st.treeHeight
    (st.treeHeight - 1).toNat fuel 1 st.rootPid (by omega) hfuel
  unfold BTreeIndex.locate
  rw [hloop, hdesc]
  simp only []
  rw [hleaf]
  simp only []
  unfold BTLeafNode.locate
  simp only []
  rcases hg : ln.entries.get? (ln.insertPoint searchKey) with _ | e
  · simp [hg]
  · by_cases he : e.fst = searchKey <;> simp [hg, he]

/-- Closed instance of C3 on the height-2 example tree: locate(5) descends
one internal level (root page 1, child page 2) and finds key 5 at entry 0
of the left leaf. -/
theorem locate_descends_to_leaf_witness :
    BTreeIndex.locate stTree 5 { pid := 0, eid := 0 } 1 =
      some (0, { pid := 2, eid := 0 }, stTree) := by
  have h := locate_descends_to_leaf stTree 5 { pid := 0, eid := 0 } 1 2 lnLeft
    (by decide) (by decide) rfl rfl
  exact h.trans rfl
